import Mathlib

/-!
Verification development for the interactive theme selector
(`select_theme.py`).  The Python data model and the operations of the
interactive selector are embedded shallowly:

* `ThemeModeEnum`, `LineStringProperties`, `SelectorConfig` model the
  persisted annotation records (the `attrs` classes of the source);
* `FormattedLineString` / `FormattedLine` model the rendered line wrapper
  (`UserString` subclass) — Python object identity of the shared
  `LineStringProperties` records is modelled by a heap (`PropsHeap`) of
  records addressed by natural-number references;
* `found_lines` / `sort_lines` / `filter_lines` model the
  `LineStringSelector.found_lines` property.  Python's `sorted` is a
  stable sort; since every stable sort produces the same output for a
  given comparison, it is modelled by `List.insertionSort` (stable, and
  structurally recursive so that concrete runs compute);
* `SelectorViewState` / `apply_move` model the up/down/pageup/pagedown
  key handlers and the search-text change handler `find_lines`;
* `SelectorState` and the handlers `pin_unpin`, `set_theme_mode`,
  `update_comment_key` model the full mutable state of one selector
  session including the configuration store and the file written by
  `SelectorConfig.dump`.  The third-party TOML (de)serialization layer
  (`cattrs`/`tomlkit`) is abstracted as a faithful map between a record
  and its three persisted fields (`pinned`, `comment`, `theme_mode`),
  which is the documented on-disk format;
* `ModeState` models the process-wide `Mode` class (a class attribute,
  shared by every selector in the process).
-/

namespace ThemeSelector

/-- The `ThemeModeEnum` `StrEnum` of the source: members `unset`, `light`,
`dark` with their lowercase names as values; `itertools.cycle` iterates
them in declaration order. -/
inductive ThemeModeEnum where
  | unset
  | light
  | dark
deriving DecidableEq

/-- The `StrEnum` string value of each member (`auto()` gives the
lowercased member name). -/
def ThemeModeEnum.value : ThemeModeEnum → String
  | .unset => "unset"
  | .light => "light"
  | .dark => "dark"

/-- The `ThemeModeEnum(value)` conversion used by the `attrs` converter of
`LineStringProperties.theme_mode`; an unknown value raises `ValueError`,
modelled by `none`. -/
def ThemeModeEnum.ofValue (s : String) : Option ThemeModeEnum :=
  if s = "unset" then some .unset
  else if s = "light" then some .light
  else if s = "dark" then some .dark
  else none

/-- One step of `itertools.cycle(ThemeModeEnum)`: the member after the
given one in declaration order, wrapping around. -/
def ThemeModeEnum.nextMode : ThemeModeEnum → ThemeModeEnum
  | .unset => .light
  | .light => .dark
  | .dark => .unset

/-- The `LineStringProperties` attrs record.  `cycled_pos` models the
position of the `_cycled_theme` iterator: the member the iterator yielded
last.  `__attrs_post_init__` advances the fresh iterator until it has
yielded `theme_mode`, i.e. `cycled_pos = theme_mode` on construction. -/
structure LineStringProperties where
  pinned : Bool
  comment : String
  theme_mode : ThemeModeEnum
  cycled_pos : ThemeModeEnum
deriving DecidableEq

/-- Constructing `LineStringProperties(pinned, comment, theme_mode)`:
`__attrs_post_init__` leaves the cycle iterator positioned on
`theme_mode`. -/
def LineStringProperties.make (pinned : Bool) (comment : String)
    (theme_mode : ThemeModeEnum) : LineStringProperties :=
  { pinned := pinned, comment := comment, theme_mode := theme_mode,
    cycled_pos := theme_mode }

/-- The record produced by `LineStringProperties()` with no arguments
(all attrs defaults). -/
def defaultProperties : LineStringProperties :=
  LineStringProperties.make false "" .unset

/-- `LineStringProperties.is_theme_set`. -/
def LineStringProperties.is_theme_set (p : LineStringProperties) : Bool :=
  p.theme_mode != .unset

/-- `LineStringProperties.set_next_theme`: promote the cycle iterator and
store the yielded member as the new `theme_mode`; returns the updated
record together with the returned mode. -/
def LineStringProperties.set_next_theme (p : LineStringProperties) :
    LineStringProperties × ThemeModeEnum :=
  let t := p.cycled_pos.nextMode
  ({ p with theme_mode := t, cycled_pos := t }, t)

/-- Heap of `LineStringProperties` records; a `Nat` index models a Python
object reference, so that sharing of one record between several
`FormattedLineString` wrappers (and the config mapping) is observable. -/
abbrev PropsHeap := List LineStringProperties

/-- Dereference a record; out-of-heap references never occur in the
modelled runs. -/
def derefProps (heap : PropsHeap) (r : Nat) : LineStringProperties :=
  heap.getD r defaultProperties

/-- The state of one `FormattedLineString` (`UserString` subclass):
`value` is the raw theme name, `propsRef` the reference to its (shared)
`LineStringProperties` record, `pinned` the instance attribute copied out
of the record in `__init__`, and `data` the cached formatted string held
by `UserString`. -/
structure FormattedLineString where
  value : String
  propsRef : Nat
  pinned : Bool
  data : String
deriving DecidableEq

/-- Placeholder for dereferencing an absent item; never hit in the
modelled runs. -/
def junkLineString : FormattedLineString :=
  { value := "", propsRef := 0, pinned := false, data := "" }

/-- `FormattedLineString._make_formatted_value`, as a function of the raw
name, the instance `pinned` flag and the referenced record.  The
`_theme_char` dict has entries for `dark` (`'D'`) and `light` (`'L'`)
only; the lookup is guarded by `is_theme_set`, so the `unset` arm is dead
code (mapped to a blank like the guard's else-branch). -/
def theme_char_table : ThemeModeEnum → String
  | .dark => "D"
  | .light => "L"
  | .unset => " "

/-- Body of `_make_formatted_value`: pin glyph prepended first, then the
theme character, then the comment suffix, then the newline. -/
def make_formatted_value (value : String) (pinned : Bool)
    (props : LineStringProperties) : String :=
  let data := value
  let data := if pinned then "*" ++ " " ++ data else data
  let tc := if props.is_theme_set then theme_char_table props.theme_mode else " "
  let data := tc ++ " " ++ data
  let data := if props.comment ≠ "" then data ++ "   # " ++ props.comment else data
  data ++ "\n"

/-- `FormattedLineString.__init__(value, properties)`: copy the record's
`pinned` flag into the instance and cache the formatted string. -/
def FormattedLineString.make (heap : PropsHeap) (value : String)
    (propsRef : Nat) : FormattedLineString :=
  let props := derefProps heap propsRef
  { value := value, propsRef := propsRef, pinned := props.pinned,
    data := make_formatted_value value props.pinned props }

/-- `FormattedLineString.is_pinned` (reads the instance copy). -/
def FormattedLineString.is_pinned (fls : FormattedLineString) : Bool :=
  fls.pinned

/-- `FormattedLineString._update_data`: recompute the cached string from
the current instance state and record. -/
def FormattedLineString.update_data (fls : FormattedLineString)
    (heap : PropsHeap) : FormattedLineString :=
  { fls with data := make_formatted_value fls.value fls.pinned
                       (derefProps heap fls.propsRef) }

/-- `FormattedLineString.toggle_pin`: flips the instance `pinned` copy
(the write to `props.pinned` is commented out in the source), re-renders,
returns the new flag. -/
def FormattedLineString.toggle_pin (fls : FormattedLineString)
    (heap : PropsHeap) : FormattedLineString × Bool :=
  let fls := { fls with pinned := !fls.pinned }
  (fls.update_data heap, fls.pinned)

/-- `FormattedLineString.get_comment` (reads the shared record). -/
def FormattedLineString.get_comment (fls : FormattedLineString)
    (heap : PropsHeap) : String :=
  (derefProps heap fls.propsRef).comment

/-- `FormattedLineString.update_comment`: writes the comment into the
shared record, then re-renders this wrapper. -/
def FormattedLineString.update_comment (fls : FormattedLineString)
    (heap : PropsHeap) (text : String) : FormattedLineString × PropsHeap :=
  let heap := heap.set fls.propsRef
    { derefProps heap fls.propsRef with comment := text }
  (fls.update_data heap, heap)

/-- `FormattedLineString.switch_theme`: `set_next_theme` on the shared
record, re-render, return the new mode. -/
def FormattedLineString.switch_theme (fls : FormattedLineString)
    (heap : PropsHeap) : FormattedLineString × PropsHeap × ThemeModeEnum :=
  let pt := (derefProps heap fls.propsRef).set_next_theme
  let heap := heap.set fls.propsRef pt.1
  (fls.update_data heap, heap, pt.2)

/-- The `FormattedLine` attrs pair of a style string and the wrapped
line. -/
structure FormattedLine where
  style : String
  string : FormattedLineString
deriving DecidableEq

/-- Python's `needle in hay` on strings: contiguous substring test
(character lists; the empty needle matches). -/
def str_contains_aux (needle : List Char) : List Char → Bool
  | [] => List.isPrefixOf needle []
  | c :: hs => List.isPrefixOf needle (c :: hs) || str_contains_aux needle hs

/-- `typed_text in fl.string` — `UserString.__contains__` tests substring
containment against the cached `data`. -/
def str_contains (hay needle : String) : Bool :=
  str_contains_aux needle.data hay.data

/-- Python's `sorted(l, key=...)` is a stable sort; every stable sort
computes the same list, so it is modelled by the (stable, structurally
recursive) insertion sort with the non-strict comparison `le`. -/
def pySort {α : Type} (le : α → α → Bool) (l : List α) : List α :=
  List.insertionSort (fun a b => le a b = true) l

/-- Python's `str.lower()` modelled as per-character ASCII lowering
(theme file names are ASCII). -/
def str_lower (s : String) : String :=
  String.mk (s.data.map Char.toLower)

/-- Sort key of the first `sorted` call: `fl.string.value.lower()`. -/
def name_key (fl : FormattedLine) : String :=
  str_lower fl.string.value

/-- Python's `<=` on strings: lexicographic comparison of the code
points. -/
def py_str_le : List Char → List Char → Bool
  | [], _ => true
  | _ :: _, [] => false
  | a :: as, b :: bs =>
    if a < b then true else if b < a then false else py_str_le as bs

/-- Comparison of the first `sorted` call (ascending by lowered name). -/
def name_le (a b : FormattedLine) : Bool :=
  py_str_le (name_key a).data (name_key b).data

/-- Comparison of the second `sorted` call: `key=is_pinned, reverse=True`;
stable descending order on the `Bool` key, i.e. `a` may stay before `b`
iff `is_pinned b ≤ is_pinned a`. -/
def pin_le (a b : FormattedLine) : Bool :=
  !b.string.is_pinned || a.string.is_pinned

/-- The filter step of `LineStringSelector.found_lines`: when the typed
text is non-empty, keep the lines whose rendered string contains it. -/
def filter_lines (lines : List FormattedLine) (typed_text : String) :
    List FormattedLine :=
  if typed_text ≠ "" then
    lines.filter (fun fl => str_contains fl.string.data typed_text)
  else lines

/-- The two stable sorts of `found_lines`: first by lowered name
ascending, then by pinned flag descending. -/
def sort_lines (lines : List FormattedLine) : List FormattedLine :=
  pySort pin_le (pySort name_le lines)

/-- `LineStringSelector.found_lines`. -/
def found_lines (lines : List FormattedLine) (typed_text : String) :
    List FormattedLine :=
  sort_lines (filter_lines lines typed_text)

/-- Pair of the two sort keys of one line; two lines with equal
`line_key` are tied in both `sorted` calls. -/
def line_key (fl : FormattedLine) : Bool × String :=
  (fl.string.is_pinned, name_key fl)

/-! ### Selection state and the navigation key handlers (claim C3) -/

/-- The part of `LineStringSelector` state that the navigation handlers
and `find_lines` touch: the fixed list of formatted lines, the typed
search text and `_selected_idx` (a Python `int`). -/
structure SelectorViewState where
  formatted_lines : List FormattedLine
  typed_text : String
  selected_idx : Int
deriving DecidableEq

/-- `LineStringSelector.lines_count`. -/
def lines_count (st : SelectorViewState) : Nat :=
  (found_lines st.formatted_lines st.typed_text).length

/-- The navigation events: the four movement key handlers (page moves
carry `len(render_info.displayed_lines)`) and a search-text change
(`find_lines`, fired by `on_text_changed`). -/
inductive MoveOp where
  | up
  | down
  | pageup (page : Nat)
  | pagedown (page : Nat)
  | find (s : String)

/-- The key handlers `up`, `down`, `pageup`, `pagedown` and the
`find_lines` callback, verbatim:
`up`: `max(0, idx - 1)`; `down`: `min(lines_count - 1, idx + 1)`;
`pageup`: `max(0, idx - page)`; `pagedown`: `min(lines_count - 1, idx + page)`;
`find_lines`: store the typed text and reset the index to 0. -/
def apply_move (st : SelectorViewState) : MoveOp → SelectorViewState
  | .up => { st with selected_idx := max 0 (st.selected_idx - 1) }
  | .down => { st with selected_idx := min ((lines_count st : Int) - 1)
                                           (st.selected_idx + 1) }
  | .pageup p => { st with selected_idx := max 0 (st.selected_idx - (p : Int)) }
  | .pagedown p => { st with selected_idx := min ((lines_count st : Int) - 1)
                                                 (st.selected_idx + (p : Int)) }
  | .find s => { st with typed_text := s, selected_idx := 0 }

/-- Folding a sequence of navigation events. -/
def apply_moves (st : SelectorViewState) (ops : List MoveOp) : SelectorViewState :=
  ops.foldl apply_move st

/-- The view state right after `LineStringSelector.__init__`
(`_selected_idx = 0`, empty search buffer). -/
def init_view (lines : List FormattedLine) : SelectorViewState :=
  { formatted_lines := lines, typed_text := "", selected_idx := 0 }

/-! ### The persisted store (claims C4, C8) -/

/-- One table of the on-disk TOML document: the three persisted fields of
a record, with the enum stored by its string value (the documented
format written through `cattrs`/`tomlkit`). -/
structure PropsDoc where
  pinned : Bool
  comment : String
  theme_mode : String
deriving DecidableEq

/-- The parsed `properties` table of the config file: item name mapped to
its serialized record, in insertion order. -/
abbrev ConfigDoc := List (String × PropsDoc)

/-- Unstructuring one record for `toml_converter.dumps`. -/
def serialize_props (p : LineStringProperties) : PropsDoc :=
  { pinned := p.pinned, comment := p.comment, theme_mode := p.theme_mode.value }

/-- Structuring one parsed table back into `LineStringProperties(**properties)`:
the attrs converter applies `ThemeModeEnum(value)` (raising on an unknown
value) and `__attrs_post_init__` re-seats the cycle iterator. -/
def structure_props (d : PropsDoc) : Except String LineStringProperties :=
  match ThemeModeEnum.ofValue d.theme_mode with
  | some t => .ok (LineStringProperties.make d.pinned d.comment t)
  | none => .error "ValueError: not a valid ThemeModeEnum"

/-- The in-memory store: `SelectorConfig.properties`, a defaultdict from
item name to record (association list in insertion order). -/
abbrev Store := List (String × LineStringProperties)

/-- `to_defaultdict(LineStringProperties, data)`: structure every table of
the parsed document into a record. -/
def to_defaultdict (doc : ConfigDoc) : Except String Store :=
  doc.mapM (fun nd => (structure_props nd.2).map (fun p => (nd.1, p)))

/-- defaultdict lookup: an absent name yields a fresh default record. -/
def store_get (store : Store) (name : String) : LineStringProperties :=
  match store.lookup name with
  | some p => p
  | none => defaultProperties

/-- `SelectorConfig.load(config_path)`: a missing file (`none`) structures
the empty document into an empty store; otherwise the file contents are
parsed and structured. -/
def SelectorConfig.load (file : Option ConfigDoc) : Except String Store :=
  match file with
  | none => .ok []
  | some doc => to_defaultdict doc

/-- `SelectorConfig.dump`: serialize every record of the mapping (here the
mapping holds heap references). -/
def dump_config (heap : PropsHeap) (cfg : List (String × Nat)) : ConfigDoc :=
  cfg.map (fun nr => (nr.1, serialize_props (derefProps heap nr.2)))

/-! ### One selector session with its mutation handlers (claims C5, C10) -/

/-- `LineStringSelector._create_formatted_lines`: wrap every theme name;
a name present in the loaded properties gets its record, every other name
gets the single default-argument record of `FormattedLineString.__init__`
(reference 0, the object created once at class definition time). -/
def create_formatted_lines (heap : PropsHeap) (theme_names : List String)
    (cfg : List (String × Nat)) : List FormattedLineString :=
  theme_names.map (fun name =>
    FormattedLineString.make heap name ((cfg.lookup name).getD 0))

/-- Full state of one `LineStringSelector` session: the record heap, the
item wrappers (addressed by position; `found_lines` copies the list but
shares the wrapper objects), the creation order, the selection index, the
typed search text, `SelectorConfig.properties` as name-to-reference, and
the contents of the config file on disk. -/
structure SelectorState where
  props_heap : PropsHeap
  item_heap : List FormattedLineString
  line_order : List Nat
  selected_idx : Int
  typed_text : String
  config_props : List (String × Nat)
  disk : Option ConfigDoc

/-- Dereference an item wrapper. -/
def deref_item (st : SelectorState) (r : Nat) : FormattedLineString :=
  st.item_heap.getD r junkLineString

/-- `found_lines` over the session state: same filter and double sort,
computed on references so the selected wrapper can be mutated in
place. -/
def found_refs (st : SelectorState) : List Nat :=
  let refs := st.line_order
  let refs := if st.typed_text ≠ "" then
      refs.filter (fun r => str_contains (deref_item st r).data st.typed_text)
    else refs
  pySort (fun a b => !(deref_item st b).is_pinned || (deref_item st a).is_pinned)
    (pySort (fun a b =>
      py_str_le (str_lower (deref_item st a).value).data
        (str_lower (deref_item st b).value).data) refs)

/-- Python list indexing (negative indices wrap; out of range raises
`IndexError`). -/
def list_py_get (l : List Nat) (i : Int) : Except String Nat :=
  if 0 ≤ i ∧ i < l.length then .ok (l.getD i.toNat 0)
  else if 0 ≤ i + l.length ∧ i < 0 then .ok (l.getD (i + l.length).toNat 0)
  else .error "IndexError: list index out of range"

/-- `LineStringSelector.selected_line`: `None` when the view is empty,
otherwise `found_lines[selected_idx]`. -/
def selected_ref (st : SelectorState) : Except String (Option Nat) :=
  let fr := found_refs st
  if fr.isEmpty then .ok none else (list_py_get fr st.selected_idx).map some

/-- `self.config.properties[props_idx]`: defaultdict access inserts a
fresh default record for an absent name (appended to the heap and the
mapping, preserving dict insertion order). -/
def config_get_ref (st : SelectorState) (name : String) : SelectorState × Nat :=
  match st.config_props.lookup name with
  | some r => (st, r)
  | none =>
    let r := st.props_heap.length
    ({ st with props_heap := st.props_heap ++ [defaultProperties],
               config_props := st.config_props ++ [(name, r)] }, r)

/-- `LineStringSelector.sync_props`: set the given attributes on the
config record of `props_idx`, then `config.dump(config_path)` rewrites
the file from the full mapping. -/
def sync_props (st : SelectorState) (props_idx : String)
    (upd : LineStringProperties → LineStringProperties) : SelectorState :=
  let sr := config_get_ref st props_idx
  let st := sr.1
  let st := { st with props_heap :=
      st.props_heap.set sr.2 (upd (derefProps st.props_heap sr.2)) }
  { st with disk := some (dump_config st.props_heap st.config_props) }

/-- Replace an item wrapper in place (Python mutates the shared object). -/
def set_item (st : SelectorState) (r : Nat) (fls : FormattedLineString) :
    SelectorState :=
  { st with item_heap := st.item_heap.set r fls }

/-- The `c-p` handler `pin_unpin` (guarded by `has_selected_line`): the
name is saved before toggling (source comment: it must be, because the
selected line changes), then the new flag is synced. -/
def pin_unpin (st : SelectorState) : Except String SelectorState := do
  match ← selected_ref st with
  | none => .ok st
  | some r =>
    let props_idx := (deref_item st r).value
    let fb := (deref_item st r).toggle_pin st.props_heap
    let st := set_item st r fb.1
    .ok (sync_props st props_idx (fun p => { p with pinned := fb.2 }))

/-- The `c-t` handler `set_theme_mode` (guarded by `has_selected_line`):
`switch_theme` mutates the selected line first, and only afterwards
`self.selected_line` is read again to obtain the name passed to
`sync_props`; on a now-empty view that second read is `None` and the
attribute access raises. -/
def set_theme_mode (st : SelectorState) : Except String SelectorState := do
  match ← selected_ref st with
  | none => .ok st
  | some r =>
    let res := (deref_item st r).switch_theme st.props_heap
    let st := { set_item st r res.1 with props_heap := res.2.1 }
    match ← selected_ref st with
    | none => .error "AttributeError: NoneType has no attribute string"
    | some r2 =>
      .ok (sync_props st (deref_item st r2).value
        (fun p => { p with theme_mode := res.2.2 }))

/-- The comment-buffer `enter` handler `update_comment` (guarded by
`has_selected_line`): the selected line's record gets the new comment,
then `self.selected_line` is read again for the name synced to the
store. -/
def update_comment_key (st : SelectorState) (new_comment : String) :
    Except String SelectorState := do
  match ← selected_ref st with
  | none => .ok st
  | some r =>
    let res := (deref_item st r).update_comment st.props_heap new_comment
    let st := { set_item st r res.1 with props_heap := res.2 }
    match ← selected_ref st with
    | none => .error "AttributeError: NoneType has no attribute string"
    | some r2 =>
      .ok (sync_props st (deref_item st r2).value
        (fun p => { p with comment := new_comment }))

/-- `find_lines` on the session state. -/
def session_find_lines (st : SelectorState) (text : String) : SelectorState :=
  { st with typed_text := text, selected_idx := 0 }

/-- Building one session: load the store from the file, lay the loaded
records out behind the class-level default record (reference 0), wrap the
theme names, start with index 0 and empty search text. -/
def init_selector (file : Option ConfigDoc) (theme_names : List String) :
    Except String SelectorState := do
  let store ← SelectorConfig.load file
  let heap := defaultProperties :: store.map (fun np => np.2)
  let cfg := store.enum.map (fun ip => (ip.2.1, ip.1 + 1))
  let items := create_formatted_lines heap theme_names cfg
  .ok { props_heap := heap, item_heap := items,
        line_order := List.range theme_names.length,
        selected_idx := 0, typed_text := "", config_props := cfg,
        disk := file }

/-! ### Single-item mutation traces (claim C7) -/

/-- The three mutators of one `FormattedLineString`. -/
inductive ItemOp where
  | toggle
  | set_comment (text : String)
  | cycle_theme

/-- Apply one mutator to a pair of the record heap and one wrapper. -/
def apply_item_op (s : PropsHeap × FormattedLineString) :
    ItemOp → PropsHeap × FormattedLineString
  | .toggle => (s.1, (s.2.toggle_pin s.1).1)
  | .set_comment t =>
    let r := s.2.update_comment s.1 t
    (r.2, r.1)
  | .cycle_theme =>
    let r := s.2.switch_theme s.1
    (r.2.1, r.1)

/-- Fold a trace of mutators. -/
def apply_item_ops (s : PropsHeap × FormattedLineString) (ops : List ItemOp) :
    PropsHeap × FormattedLineString :=
  ops.foldl apply_item_op s

/-- The cached `data` agrees with a re-render from the wrapper's current
instance state (its `pinned` copy and its record's comment and mode). -/
def rendered_in_sync (s : PropsHeap × FormattedLineString) : Prop :=
  s.2.data = make_formatted_value s.2.value s.2.pinned (derefProps s.1 s.2.propsRef)

/-- The rendering derived from the current field values of the shared
record alone — what claim C7 says the cache always equals. -/
def record_rendering (s : PropsHeap × FormattedLineString) : String :=
  make_formatted_value s.2.value (derefProps s.1 s.2.propsRef).pinned
    (derefProps s.1 s.2.propsRef)

/-! ### The process-wide mode flag (claim C9) -/

/-- The `Mode` class: a single class attribute `switch_flag`, so one
state per process, not per selector. -/
structure ModeState where
  switch_flag : Bool
deriving DecidableEq

/-- `Mode.switch_mode`. -/
def Mode.switch_mode (m : ModeState) : ModeState :=
  { switch_flag := !m.switch_flag }

/-- `Mode.is_search_mode`. -/
def Mode.is_search_mode (m : ModeState) : Bool :=
  m.switch_flag

/-- A world holding two selector sessions: because `Mode.switch_flag` is
class-level, the world carries exactly one `ModeState` and the sessions
carry none of their own. -/
structure TwoSessionWorld where
  mode : ModeState
deriving DecidableEq

/-- The mode a given session observes (`Mode.is_search_mode` reads the
class attribute, whichever session asks). -/
def session_observed_mode (w : TwoSessionWorld) (_session : Nat) : Bool :=
  Mode.is_search_mode w.mode

/-- `switch_focus` of a given session calls `Mode.switch_mode` on the
class. -/
def switch_focus_in_session (w : TwoSessionWorld) (_session : Nat) :
    TwoSessionWorld :=
  { w with mode := Mode.switch_mode w.mode }

/-! ### Derived notions used by the theorems -/

/-- The selection-index invariant that actually holds (claim C3 amended):
on a non-empty view the index is clamped into `[0, count - 1]`; on an
empty view it is `0` or `-1`. -/
def sel_invariant (st : SelectorViewState) : Prop :=
  (0 < lines_count st →
    0 ≤ st.selected_idx ∧ st.selected_idx < (lines_count st : Int))
  ∧ (lines_count st = 0 → st.selected_idx = 0 ∨ st.selected_idx = -1)

/-- A formatted line over the default record, for concrete witnesses. -/
def sample_line (name : String) : FormattedLine :=
  { style := "", string := FormattedLineString.make [defaultProperties] name 0 }

/-- Concrete session run for claim C5: two theme names `a` and `b`
absent from the store, search text two blanks (which matches the blank
decoration column of both untagged lines), then one `c-t` keypress on the
selected line `a`. -/
def c5_run : Except String SelectorState := do
  let st ← init_selector none ["a", "b"]
  set_theme_mode (session_find_lines st "  ")

/-- Observations after `c5_run`: the in-memory theme mode of item `a`'s
record, and the modes of `a` and `b` in the store loaded back from the
file on disk. -/
def c5_observed : Option (ThemeModeEnum × ThemeModeEnum × ThemeModeEnum) :=
  c5_run.toOption.bind (fun st =>
    (SelectorConfig.load st.disk).toOption.map (fun store =>
      ((derefProps st.props_heap (deref_item st 0).propsRef).theme_mode,
       (store_get store "a").theme_mode,
       (store_get store "b").theme_mode)))

/-! ## Properties of the stable sort -/

theorem pySort_perm {α : Type} (le : α → α → Bool) (l : List α) :
    (pySort le l).Perm l :=
  List.perm_insertionSort _ l

theorem pySort_pairwise {α : Type} (le : α → α → Bool)
    (htrans : ∀ a b c, le a b = true → le b c = true → le a c = true)
    (htot : ∀ a b, le a b = true ∨ le b a = true) (l : List α) :
    (pySort le l).Pairwise (fun a b => le a b = true) := by
  haveI : IsTotal α (fun a b => le a b = true) := ⟨htot⟩
  haveI : IsTrans α (fun a b => le a b = true) := ⟨htrans⟩
  exact List.sorted_insertionSort _ l

theorem pySort_of_pairwise {α : Type} {le : α → α → Bool} {l : List α}
    (h : l.Pairwise (fun a b => le a b = true)) : pySort le l = l :=
  List.Sorted.insertionSort_eq h

theorem filter_pySort {α : Type} (le : α → α → Bool) (l : List α) (pred : α → Bool)
    (h : (l.filter pred).Pairwise (fun a b => le a b = true)) :
    (pySort le l).filter pred = l.filter pred := by
  have hsub : List.Sublist (l.filter pred) (pySort le l) :=
    List.sublist_insertionSort h (List.filter_sublist l)
  have hidem : (l.filter pred).filter pred = l.filter pred := by
    simp
  have hsub2 : List.Sublist (l.filter pred) ((pySort le l).filter pred) := by
    have := hsub.filter pred
    rwa [hidem] at this
  have hlen : (l.filter pred).length = ((pySort le l).filter pred).length :=
    (((pySort_perm le l).filter pred).length_eq).symm
  exact (hsub2.eq_of_length hlen).symm

theorem py_str_le_trans : ∀ (a b c : List Char),
    py_str_le a b = true → py_str_le b c = true → py_str_le a c = true
  | [], b, c, _, _ => by simp [py_str_le]
  | a :: as, [], c, h1, _ => by simp [py_str_le] at h1
  | a :: as, b :: bs, [], _, h2 => by simp [py_str_le] at h2
  | a :: as, b :: bs, c :: cs, h1, h2 => by
    simp only [py_str_le] at h1 h2 ⊢
    by_cases hab : a < b
    · by_cases hbc : b < c
      · simp [lt_trans hab hbc]
      · by_cases hcb : c < b
        · simp [hbc, hcb] at h2
        · have hbceq : b = c := le_antisymm (not_lt.mp hcb) (not_lt.mp hbc)
          subst hbceq
          simp [hab]
    · by_cases hba : b < a
      · simp [hab, hba] at h1
      · have habeq : a = b := le_antisymm (not_lt.mp hba) (not_lt.mp hab)
        subst habeq
        by_cases hac : a < c
        · simp [hac]
        · by_cases hca : c < a
          · simp [hac, hca] at h2
          · rw [if_neg hab, if_neg hba] at h1
            rw [if_neg hac, if_neg hca] at h2
            rw [if_neg hac, if_neg hca]
            exact py_str_le_trans as bs cs h1 h2

theorem py_str_le_total : ∀ (a b : List Char),
    py_str_le a b = true ∨ py_str_le b a = true
  | [], _ => Or.inl (by simp [py_str_le])
  | _ :: _, [] => Or.inr (by simp [py_str_le])
  | a :: as, b :: bs => by
    simp only [py_str_le]
    by_cases hab : a < b
    · exact Or.inl (by simp [hab])
    · by_cases hba : b < a
      · exact Or.inr (by simp [hba])
      · rcases py_str_le_total as bs with h | h
        · exact Or.inl (by simp [hab, hba, h])
        · exact Or.inr (by simp [hab, hba, h])

theorem name_le_trans (a b c : FormattedLine) :
    name_le a b = true → name_le b c = true → name_le a c = true :=
  py_str_le_trans _ _ _

theorem name_le_total (a b : FormattedLine) :
    name_le a b = true ∨ name_le b a = true :=
  py_str_le_total _ _

theorem pin_le_trans (a b c : FormattedLine) :
    pin_le a b = true → pin_le b c = true → pin_le a c = true := by
  simp only [pin_le]
  cases a.string.is_pinned <;> cases b.string.is_pinned <;>
    cases c.string.is_pinned <;> simp

theorem pin_le_total (a b : FormattedLine) :
    pin_le a b = true ∨ pin_le b a = true := by
  simp only [pin_le]
  cases a.string.is_pinned <;> cases b.string.is_pinned <;> simp

/-! ## Claim C1 -/

/-- C1: the filtered view holds exactly the lines whose rendered string
contains the typed search text as a case-sensitive substring, and all
lines when the typed text is empty. -/
theorem c1_filter_correctness (lines : List FormattedLine) (t : String) :
    (found_lines lines t).Perm
      (lines.filter (fun fl => (t == "") || str_contains fl.string.data t)) := by
  unfold found_lines sort_lines
  refine (pySort_perm _ _).trans ((pySort_perm _ _).trans ?_)
  by_cases ht : t = ""
  · subst ht
    simp [filter_lines]
  · have hbeq : (t == "") = false := beq_eq_false_iff_ne.mpr ht
    simp [filter_lines, ht, hbeq]

/-! ## Claim C2 -/

theorem pin_le_of_same {a b : FormattedLine}
    (h : a.string.is_pinned = b.string.is_pinned) : pin_le a b = true := by
  simp only [pin_le, h]
  cases b.string.is_pinned <;> simp

theorem same_pin_filter_pairwise (l : List FormattedLine) (p : Bool) :
    (l.filter (fun fl => fl.string.is_pinned == p)).Pairwise
      (fun a b => pin_le a b = true) := by
  refine List.pairwise_of_forall_mem_list (fun a ha b hb => ?_)
  have ha' := (List.mem_filter.mp ha).2
  have hb' := (List.mem_filter.mp hb).2
  exact pin_le_of_same ((beq_iff_eq.mp ha').trans (beq_iff_eq.mp hb').symm)

theorem same_key_filter_pairwise_name (l : List FormattedLine) (k : Bool × String) :
    (l.filter (fun fl => decide (line_key fl = k))).Pairwise
      (fun a b => name_le a b = true) := by
  refine List.pairwise_of_forall_mem_list (fun a ha b hb => ?_)
  have ha' := decide_eq_true_eq.mp (List.mem_filter.mp ha).2
  have hb' := decide_eq_true_eq.mp (List.mem_filter.mp hb).2
  have h1 : name_key a = k.2 := congrArg Prod.snd ha'
  have h2 : name_key b = k.2 := congrArg Prod.snd hb'
  unfold name_le
  rw [h1, h2]
  rcases py_str_le_total k.2.data k.2.data with h | h <;> exact h

theorem same_key_filter_pairwise_pin (l : List FormattedLine) (k : Bool × String) :
    (l.filter (fun fl => decide (line_key fl = k))).Pairwise
      (fun a b => pin_le a b = true) := by
  refine List.pairwise_of_forall_mem_list (fun a ha b hb => ?_)
  have ha' := decide_eq_true_eq.mp (List.mem_filter.mp ha).2
  have hb' := decide_eq_true_eq.mp (List.mem_filter.mp hb).2
  exact pin_le_of_same ((congrArg Prod.fst ha').trans (congrArg Prod.fst hb').symm)

theorem pin_split : ∀ (l : List FormattedLine),
    l.Pairwise (fun a b => pin_le a b = true) →
    l = l.filter (fun fl => fl.string.is_pinned == true)
        ++ l.filter (fun fl => fl.string.is_pinned == false)
  | [], _ => rfl
  | a :: t, h => by
    have ht : t.Pairwise (fun a b => pin_le a b = true) := (List.pairwise_cons.mp h).2
    have ha : ∀ b ∈ t, pin_le a b = true := (List.pairwise_cons.mp h).1
    cases hp : a.string.is_pinned with
    | true =>
      have := pin_split t ht
      simp only [List.filter_cons, hp]
      simpa using this
    | false =>
      have hall : ∀ b ∈ t, b.string.is_pinned = false := by
        intro b hb
        have := ha b hb
        simp only [pin_le, hp] at this
        simpa using this
      have h1 : t.filter (fun fl => fl.string.is_pinned) = [] := by
        rw [List.filter_eq_nil_iff]
        intro b hb
        simp [hall b hb]
      have h2 : t.filter (fun fl => !fl.string.is_pinned) = t := by
        rw [List.filter_eq_self]
        intro b hb
        simp [hall b hb]
      simp [List.filter_cons, hp, h1, h2]

theorem pin_le_imp {a b : FormattedLine} (h : pin_le a b = true) :
    b.string.is_pinned = true → a.string.is_pinned = true := by
  intro hb
  simp only [pin_le, hb] at h
  simpa using h

/-- C2: every filtered view is ordered with pinned lines first, each pin
group ascending by lowered name; re-sorting the view is the identity; and
the double sort is stable: lines with equal sort key keep their filtered
input order. -/
theorem c2_sort_ordering (lines : List FormattedLine) (t : String) :
    ((found_lines lines t).Pairwise
        (fun a b => b.string.is_pinned = true → a.string.is_pinned = true))
    ∧ (∀ p : Bool, ((found_lines lines t).filter
          (fun fl => fl.string.is_pinned == p)).Pairwise
            (fun a b => name_le a b = true))
    ∧ sort_lines (found_lines lines t) = found_lines lines t
    ∧ (∀ k : Bool × String,
        (found_lines lines t).filter (fun fl => decide (line_key fl = k))
          = (filter_lines lines t).filter (fun fl => decide (line_key fl = k))) := by
  simp only [found_lines, sort_lines]
  generalize filter_lines lines t = F
  have mid_pw : (pySort name_le F).Pairwise (fun a b => name_le a b = true) :=
    pySort_pairwise name_le name_le_trans name_le_total F
  have v_pw : (pySort pin_le (pySort name_le F)).Pairwise
      (fun a b => pin_le a b = true) :=
    pySort_pairwise pin_le pin_le_trans pin_le_total _
  have hgrp : ∀ p : Bool,
      (pySort pin_le (pySort name_le F)).filter (fun fl => fl.string.is_pinned == p)
        = (pySort name_le F).filter (fun fl => fl.string.is_pinned == p) :=
    fun p => filter_pySort pin_le _ _ (same_pin_filter_pairwise _ p)
  have hgrp_name : ∀ p : Bool,
      ((pySort pin_le (pySort name_le F)).filter
        (fun fl => fl.string.is_pinned == p)).Pairwise
          (fun a b => name_le a b = true) := by
    intro p
    rw [hgrp p]
    exact List.Pairwise.sublist (List.filter_sublist _) mid_pw
  refine ⟨v_pw.imp (fun h => pin_le_imp h), hgrp_name, ?_, ?_⟩
  · have hAf : ∀ p : Bool,
        (pySort name_le (pySort pin_le (pySort name_le F))).filter
            (fun fl => fl.string.is_pinned == p)
          = (pySort pin_le (pySort name_le F)).filter
              (fun fl => fl.string.is_pinned == p) :=
      fun p => filter_pySort name_le _ _ (hgrp_name p)
    have hBf : ∀ p : Bool,
        (pySort pin_le (pySort name_le (pySort pin_le (pySort name_le F)))).filter
            (fun fl => fl.string.is_pinned == p)
          = (pySort name_le (pySort pin_le (pySort name_le F))).filter
              (fun fl => fl.string.is_pinned == p) :=
      fun p => filter_pySort pin_le _ _ (same_pin_filter_pairwise _ p)
    have B_pw : (pySort pin_le (pySort name_le (pySort pin_le
        (pySort name_le F)))).Pairwise (fun a b => pin_le a b = true) :=
      pySort_pairwise pin_le pin_le_trans pin_le_total _
    rw [pin_split _ B_pw, hBf true, hAf true, hBf false, hAf false]
    exact (pin_split _ v_pw).symm
  · intro k
    have h1 : (pySort name_le F).filter (fun fl => decide (line_key fl = k))
        = F.filter (fun fl => decide (line_key fl = k)) :=
      filter_pySort name_le _ _ (same_key_filter_pairwise_name F k)
    have h2 : (pySort pin_le (pySort name_le F)).filter
          (fun fl => decide (line_key fl = k))
        = (pySort name_le F).filter (fun fl => decide (line_key fl = k)) :=
      filter_pySort pin_le _ _ (same_key_filter_pairwise_pin _ k)
    exact h2.trans h1

/-! ## Claim C3 -/

/-- C3 (counterexample): on the empty view, one `down` keypress drives the
selection index to `-1` (the handler computes `min(lines_count - 1, idx + 1)`
with `lines_count = 0`), so the index is neither `0` nor non-negative. -/
theorem c3_counterexample :
    lines_count (apply_moves (init_view []) [MoveOp.down]) = 0
    ∧ (apply_moves (init_view []) [MoveOp.down]).selected_idx = -1
    ∧ ¬ (0 ≤ (apply_moves (init_view []) [MoveOp.down]).selected_idx) := by
  refine ⟨rfl, by decide, by decide⟩

theorem sel_invariant_init (lines : List FormattedLine) :
    sel_invariant (init_view lines) := by
  unfold sel_invariant init_view
  constructor
  · intro h
    refine ⟨le_refl 0, ?_⟩
    show (0 : Int) < _
    exact_mod_cast h
  · intro _
    exact Or.inl rfl

theorem sel_invariant_step (st : SelectorViewState) (op : MoveOp)
    (h : sel_invariant st) : sel_invariant (apply_move st op) := by
  obtain ⟨h1, h2⟩ := h
  cases op with
  | up =>
    have hc : lines_count (apply_move st .up) = lines_count st := rfl
    have hi : (apply_move st .up).selected_idx = max 0 (st.selected_idx - 1) := rfl
    unfold sel_invariant
    rw [hc, hi]
    omega
  | down =>
    have hc : lines_count (apply_move st .down) = lines_count st := rfl
    have hi : (apply_move st .down).selected_idx
        = min ((lines_count st : Int) - 1) (st.selected_idx + 1) := rfl
    unfold sel_invariant
    rw [hc, hi]
    omega
  | pageup p =>
    have hc : lines_count (apply_move st (.pageup p)) = lines_count st := rfl
    have hi : (apply_move st (.pageup p)).selected_idx
        = max 0 (st.selected_idx - (p : Int)) := rfl
    unfold sel_invariant
    rw [hc, hi]
    omega
  | pagedown p =>
    have hc : lines_count (apply_move st (.pagedown p)) = lines_count st := rfl
    have hi : (apply_move st (.pagedown p)).selected_idx
        = min ((lines_count st : Int) - 1) (st.selected_idx + (p : Int)) := rfl
    unfold sel_invariant
    rw [hc, hi]
    omega
  | find s =>
    have hi : (apply_move st (.find s)).selected_idx = 0 := rfl
    unfold sel_invariant
    rw [hi]
    omega

theorem sel_invariant_moves (st : SelectorViewState) (h : sel_invariant st) :
    ∀ (ops : List MoveOp), sel_invariant (apply_moves st ops)
  | [] => h
  | op :: ops =>
    sel_invariant_moves (apply_move st op) (sel_invariant_step st op h) ops

/-- C3 (amended): along every sequence of navigation events from the
initial state, a non-empty view keeps the index clamped into
`[0, count - 1]`, while on an empty view the index is `0` or `-1`
(`down` and `pagedown` produce `-1` there; `up`, `pageup` and a search
change reset it to `0`). -/
theorem c3_selection_clamping (lines : List FormattedLine) (ops : List MoveOp) :
    sel_invariant (apply_moves (init_view lines) ops) :=
  sel_invariant_moves _ (sel_invariant_init lines) ops

/-! ## Claims C4 and C8 -/

theorem structure_serialize (p : LineStringProperties) :
    structure_props (serialize_props p)
      = Except.ok (LineStringProperties.make p.pinned p.comment p.theme_mode) := by
  cases hp : p.theme_mode <;>
    simp [structure_props, serialize_props, ThemeModeEnum.ofValue,
          ThemeModeEnum.value, hp]

theorem roundtrip_eq (heap : PropsHeap) : ∀ (cfg : List (String × Nat)),
    to_defaultdict (dump_config heap cfg)
      = Except.ok (cfg.map (fun nr => (nr.1,
          LineStringProperties.make (derefProps heap nr.2).pinned
            (derefProps heap nr.2).comment (derefProps heap nr.2).theme_mode)))
  | [] => rfl
  | nr :: cfg => by
    have ih := roundtrip_eq heap cfg
    simp only [dump_config, List.map_cons, to_defaultdict, List.mapM_cons] at ih ⊢
    rw [structure_serialize]
    rw [ih]
    rfl

theorem lookup_map_snd {β γ : Type} (f : β → γ) :
    ∀ (l : List (String × β)) (name : String),
      (l.map (fun nr => (nr.1, f nr.2))).lookup name = (l.lookup name).map f
  | [], _ => rfl
  | nr :: l, name => by
    simp only [List.map_cons, List.lookup]
    cases h : name == nr.1 with
    | true => rfl
    | false => exact lookup_map_snd f l name

/-- C4: dumping a store and loading it back from the same file succeeds
and reproduces, for every stored entry, the persisted triple of pinned
flag, comment and mode tag. -/
theorem c4_persistence_roundtrip (heap : PropsHeap) (cfg : List (String × Nat))
    (name : String) (r : Nat) (h : cfg.lookup name = some r) :
    ∃ store, to_defaultdict (dump_config heap cfg) = Except.ok store
      ∧ (store_get store name).pinned = (derefProps heap r).pinned
      ∧ (store_get store name).comment = (derefProps heap r).comment
      ∧ (store_get store name).theme_mode = (derefProps heap r).theme_mode := by
  refine ⟨_, roundtrip_eq heap cfg, ?_⟩
  have hl := lookup_map_snd (fun q : Nat =>
    LineStringProperties.make (derefProps heap q).pinned
      (derefProps heap q).comment (derefProps heap q).theme_mode) cfg name
  unfold store_get
  rw [hl, h]
  exact ⟨rfl, rfl, rfl⟩

/-- C4 (witness): a concrete heap and mapping round-tripped through the
file format. -/
theorem c4_roundtrip_witness :
    (([("latte", 1)] : List (String × Nat)).lookup "latte" = some 1)
    ∧ ∃ store, to_defaultdict (dump_config
        [defaultProperties, LineStringProperties.make true "warm" ThemeModeEnum.dark]
        [("latte", 1)]) = Except.ok store
      ∧ (store_get store "latte").pinned
          = (derefProps [defaultProperties,
              LineStringProperties.make true "warm" ThemeModeEnum.dark] 1).pinned
      ∧ (store_get store "latte").comment
          = (derefProps [defaultProperties,
              LineStringProperties.make true "warm" ThemeModeEnum.dark] 1).comment
      ∧ (store_get store "latte").theme_mode
          = (derefProps [defaultProperties,
              LineStringProperties.make true "warm" ThemeModeEnum.dark] 1).theme_mode :=
  ⟨by decide, c4_persistence_roundtrip _ _ "latte" 1 (by decide)⟩

/-- C8: loading the annotation store from a missing file yields the empty
store (every name resolving to a default record) and is not an error. -/
theorem c8_load_missing_file :
    SelectorConfig.load none = Except.ok ([] : Store)
    ∧ ∀ name, store_get [] name = defaultProperties :=
  ⟨rfl, fun _ => rfl⟩

/-! ## Claim C5 -/

/-- C5: the `c-t` handler persists the switched theme mode under whatever
line is selected after the view re-filters, not under the mutated line.
In `c5_run` the selected line `a` is cycled to `light` in memory, but the
store loaded back from disk still has `a` at `unset`, while `b` was
written as `light`. -/
theorem c5_theme_persist_divergence :
    c5_observed
      = some (ThemeModeEnum.light, ThemeModeEnum.unset, ThemeModeEnum.light) := by
  decide

/-! ## Claim C6 -/

theorem str_contains_aux_of_pre {needle hay : List Char}
    (h : List.isPrefixOf needle hay = true) : str_contains_aux needle hay = true := by
  cases hay with
  | nil => simpa [str_contains_aux] using h
  | cons c hs => simp [str_contains_aux, h]

theorem str_contains_aux_cons {needle : List Char} (c : Char) {hay : List Char}
    (h : str_contains_aux needle hay = true) :
    str_contains_aux needle (c :: hay) = true := by
  simp [str_contains_aux, h]

theorem str_contains_aux_append (needle : List Char) :
    ∀ (pre : List Char) (post : List Char),
      str_contains_aux needle (pre ++ (needle ++ post)) = true
  | [], post => str_contains_aux_of_pre (by simp)
  | c :: pre, post => by
    simpa using str_contains_aux_cons c (str_contains_aux_append needle pre post)

theorem str_contains_of_data (hay needle : String) (pre post : List Char)
    (h : hay.data = pre ++ (needle.data ++ post)) :
    str_contains hay needle = true := by
  unfold str_contains
  rw [h]
  exact str_contains_aux_append needle.data pre post

/-- C6: the rendered line is the concatenation of mode glyph, blank,
optional pin glyph, raw name, optional comment suffix and one final
newline; it holds exactly one newline; the two mode glyphs differ; and a
non-empty comment appears after a number-sign marker. -/
theorem c6_render_format (value : String) (pinned : Bool)
    (props : LineStringProperties)
    (hv : '\n' ∉ value.data) (hc : '\n' ∉ props.comment.data) :
    (make_formatted_value value pinned props
      = (if props.is_theme_set then theme_char_table props.theme_mode else " ")
          ++ " " ++ (if pinned then "*" ++ " " else "") ++ value
          ++ (if props.comment ≠ "" then "   # " ++ props.comment else "") ++ "\n")
    ∧ (make_formatted_value value pinned props).data.count '\n' = 1
    ∧ theme_char_table ThemeModeEnum.dark ≠ theme_char_table ThemeModeEnum.light
    ∧ (props.comment ≠ "" →
        str_contains (make_formatted_value value pinned props)
          ("# " ++ props.comment) = true) := by
  have hv0 : value.data.count '\n' = 0 := by
    rw [List.count_eq_zero]
    exact hv
  have hc0 : props.comment.data.count '\n' = 0 := by
    rw [List.count_eq_zero]
    exact hc
  have htc0 : ∀ m, (theme_char_table m).data.count '\n' = 0 := by
    intro m
    cases m <;> decide
  refine ⟨?_, ?_, by decide, ?_⟩
  · unfold make_formatted_value
    apply String.ext
    cases pinned <;> cases hts : props.is_theme_set <;>
      by_cases hcom : props.comment = "" <;>
        simp [hts, hcom, List.append_assoc]
  · unfold make_formatted_value
    cases pinned <;> cases hts : props.is_theme_set <;>
      by_cases hcom : props.comment = "" <;>
        simp_all [List.count_append, hv0, hc0, htc0]
  · intro hcom
    have hsplit : ("   # " : String) = "   " ++ "# " := by decide
    apply str_contains_of_data _ _
      (((if props.is_theme_set then theme_char_table props.theme_mode else " ")
        ++ " " ++ (if pinned then "*" ++ " " else "") ++ value ++ "   ").data)
      ("\n".data)
    unfold make_formatted_value
    cases pinned <;> cases hts : props.is_theme_set <;>
      simp [hts, hcom, hsplit, List.append_assoc]

/-- C6 (witness): the scenario line — comment `warm` on `latte`, the
rendered line contains `# warm`. -/
theorem c6_render_format_witness :
    ('\n' ∉ ("latte" : String).data)
    ∧ str_contains (make_formatted_value "latte" false
        (LineStringProperties.make false "warm" ThemeModeEnum.light))
        ("# " ++ "warm") = true :=
  ⟨by decide, (c6_render_format "latte" false
      (LineStringProperties.make false "warm" ThemeModeEnum.light)
      (by decide) (by decide)).2.2.2 (by decide)⟩

/-! ## Claim C7 -/

/-- C7 (counterexample): the cached rendered string goes stale in two
observable ways.  First, after one `toggle_pin` the cache shows the pin
glyph but the record's `pinned` field is unchanged (the write is
commented out), so the rendering derived from the record's current field
values differs from the cache.  Second, after a foreign mutation — a
comment written through another wrapper sharing the same record (here
the default-argument record both store-absent wrappers `a` and `b`
hold) — the untouched wrapper `b` is not re-rendered: its cache is stale
both against its own pinned copy plus the record's comment and tag
(`rendered_in_sync` fails) and against the record's current field
values. -/
theorem c7_counterexample :
    ((apply_item_op ([defaultProperties],
        FormattedLineString.make [defaultProperties] "latte" 0) ItemOp.toggle).2.data
      ≠ record_rendering (apply_item_op ([defaultProperties],
        FormattedLineString.make [defaultProperties] "latte" 0) ItemOp.toggle))
    ∧ ¬ rendered_in_sync
        (((FormattedLineString.make [defaultProperties] "a" 0).update_comment
            [defaultProperties] "warm").2,
         FormattedLineString.make [defaultProperties] "b" 0)
    ∧ (FormattedLineString.make [defaultProperties] "b" 0).data
        ≠ record_rendering
            (((FormattedLineString.make [defaultProperties] "a" 0).update_comment
                [defaultProperties] "warm").2,
             FormattedLineString.make [defaultProperties] "b" 0) := by
  refine ⟨by decide, ?_, by decide⟩
  unfold rendered_in_sync
  decide

theorem rendered_in_sync_step (s : PropsHeap × FormattedLineString) (op : ItemOp) :
    rendered_in_sync (apply_item_op s op) := by
  cases op with
  | toggle => rfl
  | set_comment t => rfl
  | cycle_theme => rfl

/-- C7 (amended): the cached rendered string equals the rendering derived
from the wrapper's own state — its `pinned` instance copy together with
its record's comment and mode tag — along every trace of the item's own
mutators.  Both departures from the original claim are exhibited by the
counterexample: the record's `pinned` field itself is not kept in sync,
and the scope to the item's own mutators is necessary because a foreign
mutation of the shared record leaves this wrapper's cache stale (an
observable stale render) until the item itself re-renders. -/
theorem c7_rendered_cache (s : PropsHeap × FormattedLineString)
    (ops : List ItemOp) (h : rendered_in_sync s) :
    rendered_in_sync (apply_item_ops s ops) := by
  induction ops generalizing s with
  | nil => exact h
  | cons op ops ih => exact ih (apply_item_op s op) (rendered_in_sync_step s op)

/-- C7 (witness): a concrete freshly constructed wrapper mutated by a
pin toggle, a comment edit and a mode cycle. -/
theorem c7_rendered_cache_witness :
    rendered_in_sync ([defaultProperties],
      FormattedLineString.make [defaultProperties] "latte" 0)
    ∧ rendered_in_sync (apply_item_ops ([defaultProperties],
        FormattedLineString.make [defaultProperties] "latte" 0)
        [ItemOp.toggle, ItemOp.set_comment "warm", ItemOp.cycle_theme]) :=
  ⟨by unfold rendered_in_sync; decide,
   c7_rendered_cache _ _ (by unfold rendered_in_sync; decide)⟩

/-! ## Claim C9 -/

/-- C9 (counterexample): with the flag initially `true`, switching mode
through one session flips the mode the other session observes. -/
theorem c9_counterexample :
    ¬ (session_observed_mode (switch_focus_in_session ⟨⟨true⟩⟩ 1) 2
        = session_observed_mode ⟨⟨true⟩⟩ 2) := by
  decide

/-- C9 (amended): the mode flag is one process-wide class attribute:
switching mode in any session flips the mode observed by every session,
and any two sessions always observe the same mode. -/
theorem c9_mode_flag_shared (w : TwoSessionWorld) (s1 s2 : Nat) :
    session_observed_mode (switch_focus_in_session w s1) s2
      = !(session_observed_mode w s2)
    ∧ session_observed_mode w s1 = session_observed_mode w s2 :=
  ⟨rfl, rfl⟩

/-! ## Claim C10 -/

/-- C10: two items whose names are absent from the loaded store share the
single default-argument record, so a comment written through one is read
back through the other. -/
theorem c10_shared_default_record (heap : PropsHeap) (names : List String)
    (cfg : List (String × Nat)) (i j : Nat) (text : String)
    (hheap : 0 < heap.length)
    (hi : i < names.length) (hj : j < names.length)
    (ha : cfg.lookup (names.getD i "") = none)
    (hb : cfg.lookup (names.getD j "") = none) :
    ((create_formatted_lines heap names cfg).getD i junkLineString).propsRef = 0
    ∧ ((create_formatted_lines heap names cfg).getD j junkLineString).propsRef = 0
    ∧ ((create_formatted_lines heap names cfg).getD j junkLineString).get_comment
        (((create_formatted_lines heap names cfg).getD i junkLineString).update_comment
          heap text).2 = text := by
  have hgen : ∀ n : Nat, n < names.length → cfg.lookup (names.getD n "") = none →
      (create_formatted_lines heap names cfg).getD n junkLineString
        = FormattedLineString.make heap (names.getD n "") 0 := by
    intro n hn hnone
    unfold create_formatted_lines
    rw [List.getD_eq_getElem?_getD, List.getElem?_map,
        List.getElem?_eq_getElem hn]
    have : names.getD n "" = names[n] := by
      rw [List.getD_eq_getElem?_getD, List.getElem?_eq_getElem hn]
      rfl
    rw [this] at hnone
    simp [hnone, this, List.getElem?_eq_getElem hn]
  rw [hgen i hi ha, hgen j hj hb]
  refine ⟨rfl, rfl, ?_⟩
  unfold FormattedLineString.make FormattedLineString.update_comment
    FormattedLineString.get_comment
  have hset : derefProps (heap.set 0 { derefProps heap 0 with comment := text }) 0
      = { derefProps heap 0 with comment := text } := by
    unfold derefProps
    rw [List.getD_eq_getElem?_getD, List.getElem?_set_self hheap]
    rfl
  simp [hset]

/-- C10 (witness): two store-absent names `a` and `b` wrapped over the
module default record; writing `warm` through the first is read through
the second. -/
theorem c10_shared_default_record_witness :
    (0 < ([defaultProperties] : PropsHeap).length)
    ∧ ((create_formatted_lines [defaultProperties] ["a", "b"] []).getD 1
        junkLineString).get_comment
        (((create_formatted_lines [defaultProperties] ["a", "b"] []).getD 0
          junkLineString).update_comment [defaultProperties] "warm").2 = "warm" :=
  ⟨by decide, (c10_shared_default_record [defaultProperties] ["a", "b"] [] 0 1 "warm"
      (by decide) (by decide) (by decide) (by decide) (by decide)).2.2⟩

end ThemeSelector
